import Mathlib

/-!
# Verification of the flux-core subprocess server (`server.c`)

A shallow embedding of the subprocess execution server: the process
Registry (`zlistx` of subprocesses), the server state, and the five
request handlers (`rexec.exec` / `write` / `kill` / `list` /
`disconnect`) together with the lifecycle callbacks
(`proc_completion_cb`, `proc_state_change_cb`, `proc_internal_fatal`).

Conventions of the embedding:
* `errno` is threaded explicitly as a `Nat` argument/result.
* Externally visible actions (responses sent on the bus, log entries,
  signals) are collected in a `List Effect`.
* External collaborators (the OS `killpg`, and the libsubprocess
  operations `flux_subprocess_kill` / `_write` / `_close`, and
  `flux_exec`) are modelled by oracles supplied as parameters, so that
  theorems quantify over every possible collaborator behaviour.
* Memory allocation (calloc, json_pack, future creation) is modelled as
  succeeding, and bus sends (`flux_respond*`) as succeeding; both are
  outside this component.
* `state_change_start` defers the state-change callback to the event
  loop; since no other handler can run in between (single control
  thread), it is modelled as a synchronous call of the state-change
  path.
-/

/-- Linux errno values used by the server. -/
def EPERM : Nat := 1
def ENOENT : Nat := 2
def ESRCH : Nat := 3
def ENOMEM : Nat := 12
def EINVAL : Nat := 22
def ENOSYS : Nat := 38
def ENODATA : Nat := 61
def EPROTO : Nat := 71
def EOVERFLOW : Nat := 75
def SIGKILL : Nat := 9

/-- `flux_subprocess_state_t`: the lifecycle states of a subprocess.
`init` is the state at `flux_exec` return; `stopped` stands for any
other enum member not handled by `proc_state_change_cb`. -/
inductive ProcState where
  | init
  | running
  | exited
  | failed
  | stopped
deriving Repr, DecidableEq

/-- Numeric encoding of a state, as packed into "state" response frames. -/
def ProcState.code : ProcState → Nat
  | .init => 0
  | .running => 1
  | .exited => 2
  | .failed => 3
  | .stopped => 4

/-- One `flux_subprocess_t` as the server sees it: the pid, current
state, `failed_errno`, exit `status`, the retained exec request
(`msgkey` aux, modelled by a numeric message id), the requester identity
(`flux_msg_route_first` of that request) and the command's argument
vector. -/
structure Proc where
  pid : Nat
  state : ProcState
  failed_errno : Nat
  status : Nat
  req : Nat
  sender : String
  argv : List String
deriving Repr, DecidableEq

/-- An entry of the `rexec.list` response: pid plus command text
(`flux_cmd_arg (cmd, 0)`). -/
structure ProcInfo where
  pid : Nat
  cmd : String
deriving Repr, DecidableEq

/-- Externally visible actions of the server, in program order:
responses (each carrying the target request's message id), error-log
entries, authorization-callback invocations, and signal deliveries. -/
inductive Effect where
  | respondOk (target : Nat)
  | respondState (target rank pid state : Nat)
  | respondStateExited (target rank state status : Nat)
  | respondError (target errnum : Nat)
  | respondList (target rank : Nat) (procs : List ProcInfo)
  | logError (msg : String)
  | authCheck (msgId : Nat)
  | killpgAttempt (pgid signum : Nat)
  | subprocKill (pid signum : Nat)
  | addHandlers
deriving Repr, DecidableEq

/-- Is this effect a response sent on the bus? -/
def Effect.isResponse : Effect → Bool
  | .respondOk _ => true
  | .respondState _ _ _ _ => true
  | .respondStateExited _ _ _ _ => true
  | .respondError _ _ => true
  | .respondList _ _ _ => true
  | _ => false

/-- Is this effect an error-log entry (`flux_log_error`)? -/
def Effect.isLog : Effect → Bool
  | .logError _ => true
  | _ => false

/-- Is this effect an invocation of the authorization callback? -/
def Effect.isAuth : Effect → Bool
  | .authCheck _ => true
  | _ => false

/-- Is this effect a signal delivery attempt (killpg or
flux_subprocess_kill)? -/
def Effect.isSignal : Effect → Bool
  | .killpgAttempt _ _ => true
  | .subprocKill _ _ => true
  | _ => false

/-- `struct subprocess_server`: the Registry (`subprocesses`), rank and
local URI, the optional authorization callback (modelled as a predicate
on the request message id), whether message handlers are registered,
and the optional shutdown future — `some b` means the future exists and
`b` tells whether it has been fulfilled. -/
structure Server where
  subprocesses : List Proc
  rank : Nat
  local_uri : String
  auth_cb : Option (Nat → Bool)
  handlers : Bool
  shutdown : Option Bool

/-- Oracles for the external collaborators: success and failure-errno
of `killpg`, `flux_subprocess_kill`, `flux_subprocess_write` (returning
the written byte count or a negative error), and
`flux_subprocess_close`. -/
structure Oracles where
  killpgOk : Nat → Nat → Bool
  killpgErrno : Nat
  subKillOk : Nat → Nat → Bool
  subKillErrno : Nat
  wret : Nat → String → Nat → Int
  wretErrno : Nat
  closeOk : Nat → String → Bool
  closeErrno : Nat

/-! ## Registry primitives (zlistx operations) -/

/-- `proc_find_bypid`'s search loop: first record with the given pid. -/
def findByPid : List Proc → Nat → Option Proc
  | [], _ => none
  | p :: ps, pid => if p.pid = pid then some p else findByPid ps pid

/-- `zlistx_delete` of the handle stored at `proc_save` time: removes
the first record with the given pid (the Registry is unique by pid). -/
def removeByPid : List Proc → Nat → List Proc
  | [], _ => []
  | p :: ps, pid => if p.pid = pid then ps else p :: removeByPid ps pid

/-- Writing through the subprocess pointer: replace the first record
with the same pid by the updated record. -/
def setProc : List Proc → Proc → List Proc
  | [], _ => []
  | p :: ps, q => if p.pid = q.pid then q :: ps else p :: setProc ps q

/-- Does the Registry hold a record for this pid? -/
def hasPid (l : List Proc) (pid : Nat) : Bool :=
  (findByPid l pid).isSome

/-! ## Registry bookkeeping -/

/-- `proc_save`: append the new subprocess to the Registry
(`zlistx_add_end`; allocation and `aux_set` modelled as succeeding). -/
def proc_save (s : Server) (p : Proc) : Server :=
  { s with subprocesses := s.subprocesses ++ [p] }

/-- `proc_delete`: save errno, delete the record from the Registry, and
if the Registry became empty while a shutdown future is outstanding,
fulfill it; restore errno on return. -/
def proc_delete (s : Server) (errno : Nat) (p : Proc) : Server × Nat :=
  let saved_errno := errno
  let subs := removeByPid s.subprocesses p.pid
  let s' : Server :=
    if subs.length = 0 ∧ s.shutdown.isSome then
      { s with subprocesses := subs, shutdown := some true }
    else
      { s with subprocesses := subs }
  (s', saved_errno)

/-- `proc_find_bypid`: look up a live subprocess; sets errno to ENOENT
when absent. -/
def proc_find_bypid (s : Server) (errno : Nat) (pid : Nat) :
    Option Proc × Nat :=
  match findByPid s.subprocesses pid with
  | some p => (some p, errno)
  | none => (none, ENOENT)

/-! ## Lifecycle callbacks -/

/-- `proc_completion_cb`: when the terminal state is not FAILED, send
the final ENODATA error response to the exec requester; then delete the
record. -/
def proc_completion_cb (s : Server) (errno : Nat) (p : Proc) :
    Server × Nat × List Effect :=
  let effs := if p.state ≠ ProcState.failed
    then [Effect.respondError p.req ENODATA]
    else []
  let (s', e') := proc_delete s errno p
  (s', e', effs)

/-- The FAILED branch of `proc_state_change_cb`: respond to the exec
requester with the recorded `failed_errno`, then delete the record
(`proc_delete` preserves errno).  Factored out because
`proc_internal_fatal` re-enters exactly this branch via
`state_change_start`. -/
def proc_state_change_failed (s : Server) (errno : Nat) (p : Proc) :
    Server × Nat × List Effect :=
  let effs := [Effect.respondError p.req p.failed_errno]
  let (s', e') := proc_delete s errno p
  (s', e', effs)

/-- `proc_internal_fatal`: no-op when already FAILED; otherwise mark
FAILED, record errno as `failed_errno`, run the state-change path, and
SIGKILL the process group (ESRCH is not logged). -/
def proc_internal_fatal (o : Oracles) (s : Server) (errno : Nat) (p : Proc) :
    Server × Nat × List Effect :=
  if p.state = ProcState.failed then (s, errno, [])
  else
    let p' := { p with state := ProcState.failed, failed_errno := errno }
    let s₁ := { s with subprocesses := setProc s.subprocesses p' }
    let (s₂, e₂, effs₂) := proc_state_change_failed s₁ errno p'
    let kill := [Effect.killpgAttempt p'.pid SIGKILL]
    if o.killpgOk p'.pid SIGKILL then
      (s₂, e₂, effs₂ ++ kill)
    else if o.killpgErrno ≠ ESRCH then
      (s₂, o.killpgErrno, effs₂ ++ kill ++ [Effect.logError "proc_internal_fatal: kill"])
    else
      (s₂, o.killpgErrno, effs₂ ++ kill)

/-- `proc_state_change_cb`: RUNNING and EXITED emit a "state" response
frame; FAILED responds with the failure errno and deletes the record;
any other state is illegal — errno is set to EPROTO, logged, and the
internal-fatal path is taken. -/
def proc_state_change_cb (o : Oracles) (s : Server) (errno : Nat)
    (p : Proc) (state : ProcState) : Server × Nat × List Effect :=
  match state with
  | .running =>
      (s, errno, [Effect.respondState p.req s.rank p.pid ProcState.running.code])
  | .exited =>
      (s, errno, [Effect.respondStateExited p.req s.rank ProcState.exited.code p.status])
  | .failed =>
      proc_state_change_failed s errno p
  | _ =>
      let e := EPROTO
      let log := [Effect.logError "proc_state_change_cb: illegal state"]
      let (s', e', effs) := proc_internal_fatal o s e p
      (s', e', log ++ effs)

/-! ## Signalling helpers -/

/-- `server_kill`: start a kill via `flux_subprocess_kill`; on failure
(NULL future) log the error — best effort, no retry. -/
def server_kill (o : Oracles) (errno : Nat) (p : Proc) (signum : Nat) :
    Nat × List Effect :=
  if o.subKillOk p.pid signum then
    (errno, [Effect.subprocKill p.pid signum])
  else
    (o.subKillErrno, [Effect.logError "server_kill: flux_subprocess_kill"])

/-- The iteration of `server_killall` over the Registry list. -/
def killall_go (o : Oracles) (signum : Nat) :
    List Proc → Nat → Nat × List Effect
  | [], e => (e, [])
  | p :: ps, e =>
      let (e', effs) := server_kill o e p signum
      let (e'', rest) := killall_go o signum ps e'
      (e'', effs ++ rest)

/-- `server_killall`: send `signum` to every subprocess in the
Registry; always returns 0. -/
def server_killall (o : Oracles) (s : Server) (errno : Nat) (signum : Nat) :
    Nat × List Effect :=
  killall_go o signum s.subprocesses errno

/-! ## Server lifecycle -/

/-- `subprocess_server_destroy`: save errno, unregister the message
handlers, SIGKILL every remaining subprocess, destroy the Registry and
the shutdown future, and restore errno. -/
def subprocess_server_destroy (o : Oracles) (s : Server) (errno : Nat) :
    Server × Nat × List Effect :=
  let saved_errno := errno
  let s₁ := { s with handlers := false }
  let (e₂, effs) := server_killall o s₁ errno SIGKILL
  let _ := e₂
  let s₂ := { s₁ with subprocesses := [], shutdown := none }
  (s₂, saved_errno, effs)

/-- `subprocess_server_create`: fails with EINVAL on a null bus handle
or local URI (registering nothing); otherwise the server starts with an
empty Registry, no shutdown future, and its handlers registered
(allocation modelled as succeeding). -/
def subprocess_server_create (h : Option Unit) (local_uri : Option String)
    (rank : Nat) (errno : Nat) : Option Server × Nat × List Effect :=
  match h, local_uri with
  | some _, some uri =>
      let s : Server :=
        { subprocesses := []
          rank := rank
          local_uri := uri
          auth_cb := none
          handlers := true
          shutdown := none }
      (some s, errno, [Effect.addHandlers])
  | _, _ => (none, EINVAL, [])

/-- `subprocess_server_set_auth_cb`. -/
def subprocess_server_set_auth_cb (s : Server) (fn : Option (Nat → Bool)) :
    Server :=
  { s with auth_cb := fn }

/-- `subprocess_server_shutdown`: EINVAL if a shutdown future is
already outstanding; otherwise create the future (`some` in the first
component models the non-NULL return), fulfill it at once when the
Registry is empty, else broadcast `signum` to every subprocess and
leave it pending. -/
def subprocess_server_shutdown (o : Oracles) (s : Server) (errno : Nat)
    (signum : Nat) : Option Unit × Server × Nat × List Effect :=
  if s.shutdown.isSome then
    (none, s, EINVAL, [])
  else
    let s₁ := { s with shutdown := some false }
    if s₁.subprocesses.length = 0 then
      (some (), { s₁ with shutdown := some true }, errno, [])
    else
      let (e', effs) := server_killall o s₁ errno signum
      (some (), s₁, e', effs)

/-! ## Request handlers -/

/-- Run the optional authorization callback on a request message id:
the effects record the invocation, the Bool is the grant decision
(`true` when no callback is set). -/
def runAuth (s : Server) (msgId : Nat) : Bool × List Effect :=
  match s.auth_cb with
  | none => (true, [])
  | some f => (f msgId, [Effect.authCheck msgId])

/-- A decoded `rexec.exec` request: `parses` is the
`flux_request_unpack` outcome, `cmdOk` the `cmd_fromjson` outcome,
`argv` the parsed argument vector, `envOk` the environment-setup
outcome. -/
structure ExecReq where
  parses : Bool
  cmdOk : Bool
  argv : List String
  envOk : Bool
  on_channel_out : Bool
  on_stdout : Bool
  on_stderr : Bool
  msgId : Nat
  sender : String

/-- `server_exec_cb`: unpack, refuse during shutdown (ENOSYS),
authorize, parse and validate the command, set up the environment,
spawn (`flux_exec`, modelled by the `spawn` oracle giving the new pid
or failure) and save the record; every failure responds to the
requester with errno and a message. -/
def server_exec_cb (spawn : Option Nat) (s : Server) (errno : Nat)
    (req : ExecReq) : Server × Nat × List Effect :=
  if ¬req.parses then
    (s, EPROTO, [Effect.respondError req.msgId EPROTO])
  else if s.shutdown.isSome then
    (s, ENOSYS, [Effect.respondError req.msgId ENOSYS])
  else
    let (granted, authEffs) := runAuth s req.msgId
    if ¬granted then
      (s, EPERM, authEffs ++ [Effect.respondError req.msgId EPERM])
    else if ¬req.cmdOk then
      (s, EINVAL, authEffs ++ [Effect.respondError req.msgId EINVAL])
    else if req.argv.length = 0 then
      (s, EPROTO, authEffs ++ [Effect.respondError req.msgId EPROTO])
    else if ¬req.envOk then
      (s, EINVAL, authEffs ++ [Effect.respondError req.msgId EINVAL])
    else
      match spawn with
      | none => (s, EINVAL, authEffs ++ [Effect.respondError req.msgId EINVAL])
      | some pid =>
          let p : Proc :=
            { pid := pid
              state := ProcState.init
              failed_errno := 0
              status := 0
              req := req.msgId
              sender := req.sender
              argv := req.argv }
          (proc_save s p, errno, authEffs)

/-- A framed io chunk after `iodecode`: stream name, optional payload
bytes, eof flag. -/
structure IoChunk where
  stream : String
  data : Option (List Nat)
  eof : Bool
deriving Repr, DecidableEq

/-- A decoded `rexec.write` request; `io = none` models an `iodecode`
failure. -/
structure WriteReq where
  parses : Bool
  pid : Nat
  io : Option IoChunk
  msgId : Nat

/-- `write_subprocess`: write the payload to the stream; a negative
return from `flux_subprocess_write` is logged and fails; a written
count different from `len` is logged, sets EOVERFLOW and fails. -/
def write_subprocess (o : Oracles) (errno : Nat) (p : Proc)
    (stream : String) (len : Nat) : Int × Nat × List Effect :=
  let tmp := o.wret p.pid stream len
  if tmp < 0 then
    (-1, o.wretErrno, [Effect.logError "write_subprocess: flux_subprocess_write"])
  else if tmp ≠ (len : Int) then
    (-1, EOVERFLOW, [Effect.logError "write_subprocess: channel buffer error"])
  else
    (0, errno, [])

/-- `close_subprocess`: close the stream on the subprocess; a failure
is logged and fails. -/
def close_subprocess (o : Oracles) (errno : Nat) (p : Proc)
    (stream : String) : Int × Nat × List Effect :=
  if o.closeOk p.pid stream then (0, errno, [])
  else (-1, o.closeErrno, [Effect.logError "close_subprocess: flux_subprocess_close"])

/-- `server_write_cb`: unpack (no response possible on failure),
authorize, decode the io chunk, look up the pid — when absent, drop the
request, logging unless errno is ENOENT with eof set; when the process
is no longer RUNNING, drop silently; otherwise write the payload (if
any) and close on eof, escalating any failure to
`proc_internal_fatal`.  Never responds to the write request. -/
def server_write_cb (o : Oracles) (s : Server) (errno : Nat)
    (req : WriteReq) : Server × Nat × List Effect :=
  if ¬req.parses then
    (s, EPROTO, [Effect.logError "server_write_cb: flux_request_unpack"])
  else
    let (granted, authEffs) := runAuth s req.msgId
    if ¬granted then
      (s, EPERM, authEffs ++ [Effect.logError "rexec.write: auth"])
    else
      match req.io with
      | none => (s, EPROTO, authEffs ++ [Effect.logError "server_write_cb: iodecode"])
      | some chunk =>
          match proc_find_bypid s errno req.pid with
          | (none, e₁) =>
              if ¬(e₁ = ENOENT ∧ chunk.eof) then
                (s, e₁, authEffs ++ [Effect.logError "server_write_cb: proc_find_bypid"])
              else
                (s, e₁, authEffs)
          | (some p, e₁) =>
              if p.state ≠ ProcState.running then
                (s, e₁, authEffs)
              else
                let wr :=
                  match chunk.data with
                  | some d =>
                      if d.length ≠ 0 then
                        write_subprocess o e₁ p chunk.stream d.length
                      else (0, e₁, [])
                  | none => (0, e₁, [])
                match wr with
                | (rc, e₂, wEffs) =>
                    if rc < 0 then
                      let (s', e₃, fEffs) := proc_internal_fatal o s e₂ p
                      (s', e₃, authEffs ++ wEffs ++ fEffs)
                    else if chunk.eof then
                      match close_subprocess o e₂ p chunk.stream with
                      | (rc', e₃, cEffs) =>
                          if rc' < 0 then
                            let (s', e₄, fEffs) := proc_internal_fatal o s e₃ p
                            (s', e₄, authEffs ++ wEffs ++ cEffs ++ fEffs)
                          else
                            (s, e₃, authEffs ++ wEffs ++ cEffs)
                    else
                      (s, e₂, authEffs ++ wEffs)

/-- A decoded `rexec.kill` request. -/
structure KillReq where
  parses : Bool
  pid : Nat
  signum : Nat
  msgId : Nat

/-- `server_kill_cb`: unpack, authorize, look up the pid and
`killpg` it; respond with an empty success message, or with errno (and
the auth failure text when authorization denied). -/
def server_kill_cb (o : Oracles) (s : Server) (errno : Nat)
    (req : KillReq) : Server × Nat × List Effect :=
  if ¬req.parses then
    (s, EPROTO, [Effect.respondError req.msgId EPROTO])
  else
    let (granted, authEffs) := runAuth s req.msgId
    if ¬granted then
      (s, EPERM, authEffs ++ [Effect.respondError req.msgId EPERM])
    else
      match proc_find_bypid s errno req.pid with
      | (none, e₁) =>
          (s, e₁, authEffs ++ [Effect.respondError req.msgId e₁])
      | (some _, e₁) =>
          let att := [Effect.killpgAttempt req.pid req.signum]
          if o.killpgOk req.pid req.signum then
            (s, e₁, authEffs ++ att ++ [Effect.respondOk req.msgId])
          else
            (s, o.killpgErrno,
             authEffs ++ att ++ [Effect.respondError req.msgId o.killpgErrno])

/-- `process_info`: the pid and command text (`flux_cmd_arg (cmd, 0)`)
of one record (allocation modelled as succeeding). -/
def process_info (p : Proc) : ProcInfo :=
  { pid := p.pid, cmd := p.argv.headD "" }

/-- `server_list_cb`: authorize, then respond with the rank and one
`process_info` entry per Registry record, in a single message. -/
def server_list_cb (s : Server) (errno : Nat) (msgId : Nat) :
    Server × Nat × List Effect :=
  let (granted, authEffs) := runAuth s msgId
  if ¬granted then
    (s, EPERM, authEffs ++ [Effect.respondError msgId EPERM])
  else
    (s, errno,
     authEffs ++ [Effect.respondList msgId s.rank (s.subprocesses.map process_info)])

/-- The per-record body of `server_disconnect_cb`'s loop: SIGKILL the
record when its requester identity matches the disconnecting sender. -/
def disconnect_go (o : Oracles) (sender : String) :
    List Proc → Nat → Nat × List Effect
  | [], e => (e, [])
  | p :: ps, e =>
      let (e', effs) :=
        if p.sender = sender then server_kill o e p SIGKILL else (e, [])
      let (e'', rest) := disconnect_go o sender ps e'
      (e'', effs ++ rest)

/-- `server_disconnect_cb`: no authorization; when the notification
carries a sender identity, force-kill every record owned by it. -/
def server_disconnect_cb (o : Oracles) (s : Server) (errno : Nat)
    (sender : Option String) : Server × Nat × List Effect :=
  match sender with
  | none => (s, errno, [])
  | some snd =>
      let (e', effs) := disconnect_go o snd s.subprocesses errno
      (s, e', effs)

/-! ## Lifecycle event traces

The completion / state-change callbacks are driven by the external
process primitive (libsubprocess).  `handle_event` dispatches one such
event for a given pid to the callbacks above, after recording the new
state on the subprocess object the way the primitive does before it
invokes the callback. -/

/-- One lifecycle event delivered by the external process primitive. -/
inductive LifeEvent where
  | stateChange (st : ProcState)
  | completion
deriving Repr, DecidableEq

/-- Deliver one lifecycle event for `pid` to the server's callbacks.
The primitive hands the callbacks the subprocess object itself; a
process no longer tracked receives no events. -/
def handle_event (o : Oracles) (s : Server) (errno : Nat) (pid : Nat)
    (ev : LifeEvent) : Server × Nat × List Effect :=
  match findByPid s.subprocesses pid with
  | none => (s, errno, [])
  | some p =>
      match ev with
      | .stateChange st =>
          let p' := { p with state := st }
          let s' := { s with subprocesses := setProc s.subprocesses p' }
          proc_state_change_cb o s' errno p' st
      | .completion => proc_completion_cb s errno p

/-- For each event of the trace in turn, 1 when delivering it removed
`pid`'s record from the Registry, else 0. -/
def removalFlags (o : Oracles) :
    Server → Nat → Nat → List LifeEvent → List Nat
  | _, _, _, [] => []
  | s, e, pid, ev :: evs =>
      let (s', e', _) := handle_event o s e pid ev
      (if hasPid s.subprocesses pid ∧ ¬hasPid s'.subprocesses pid then 1 else 0)
        :: removalFlags o s' e' pid evs

/-- Total number of Registry removals of `pid` over a trace. -/
def removalCount (o : Oracles) (s : Server) (e : Nat) (pid : Nat)
    (evs : List LifeEvent) : Nat :=
  (removalFlags o s e pid evs).sum

/-- Modelled from the spec: the per-process delivery orders of the
external process primitive (libsubprocess, whose source is not part of
this component): a spawned process enters Running, then either exits —
state-change(Exited) followed by the completion event — or fails —
state-change(Failed), after which "completion is not awaited further
for that record". -/
def validTerminalTrace (evs : List LifeEvent) : Prop :=
  evs = [LifeEvent.stateChange ProcState.running,
         LifeEvent.stateChange ProcState.exited,
         LifeEvent.completion] ∨
  evs = [LifeEvent.stateChange ProcState.running,
         LifeEvent.stateChange ProcState.failed]

/-- Number of records with the given pid (the Registry keeps it at most
1 at any instant). -/
def countPid : List Proc → Nat → Nat
  | [], _ => 0
  | p :: ps, pid => (if p.pid = pid then 1 else 0) + countPid ps pid

/-! ## Registry list lemmas -/

theorem findByPid_pid {l : List Proc} {pid : Nat} {p : Proc}
    (h : findByPid l pid = some p) : p.pid = pid := by
  induction l with
  | nil => simp [findByPid] at h
  | cons q qs ih =>
      rw [findByPid] at h
      by_cases hq : q.pid = pid
      · rw [if_pos hq] at h
        injection h with h
        subst h
        exact hq
      · rw [if_neg hq] at h
        exact ih h

theorem hasPid_iff_countPid {l : List Proc} {pid : Nat} :
    hasPid l pid = true ↔ countPid l pid ≠ 0 := by
  induction l with
  | nil => simp [hasPid, findByPid, countPid]
  | cons q qs ih =>
      by_cases hq : q.pid = pid
      · simp [hasPid, findByPid, hq, countPid]
      · simp [hasPid, findByPid, hq, countPid] at ih ⊢
        exact ih

theorem countPid_removeByPid {l : List Proc} {pid : Nat}
    (h : hasPid l pid = true) :
    countPid (removeByPid l pid) pid = countPid l pid - 1 := by
  induction l with
  | nil => simp [hasPid, findByPid] at h
  | cons q qs ih =>
      by_cases hq : q.pid = pid
      · simp [removeByPid, hq, countPid]
      · simp [hasPid, findByPid, hq] at h
        simp [removeByPid, hq, countPid, ih h]

theorem countPid_setProc {l : List Proc} {q : Proc} {pid : Nat}
    (hq : q.pid = pid) :
    countPid (setProc l q) pid = countPid l pid := by
  subst hq
  induction l with
  | nil => simp [setProc]
  | cons r rs ih =>
      by_cases hr : r.pid = q.pid
      · simp [setProc, hr, countPid]
      · simp [setProc, hr, countPid, ih]

theorem findByPid_setProc {l : List Proc} {q : Proc} {pid : Nat}
    (hq : q.pid = pid) (h : hasPid l pid = true) :
    findByPid (setProc l q) pid = some q := by
  subst hq
  induction l with
  | nil => simp [hasPid, findByPid] at h
  | cons r rs ih =>
      by_cases hr : r.pid = q.pid
      · simp [setProc, hr, findByPid]
      · simp [hasPid, findByPid, hr] at h
        simp [setProc, hr, findByPid, ih h]

theorem hasPid_setProc {l : List Proc} {q : Proc} {pid : Nat}
    (hq : q.pid = pid) (h : hasPid l pid = true) :
    hasPid (setProc l q) pid = true := by
  simp [hasPid, findByPid_setProc hq h]

/-! ## Projection lemmas for the callback results -/

theorem proc_delete_fst_subs (s : Server) (e : Nat) (p : Proc) :
    ((proc_delete s e p).1).subprocesses = removeByPid s.subprocesses p.pid := by
  simp only [proc_delete]
  split <;> rfl

theorem proc_delete_snd (s : Server) (e : Nat) (p : Proc) :
    (proc_delete s e p).2 = e := rfl

theorem proc_completion_cb_proj (s : Server) (e : Nat) (p : Proc) :
    (proc_completion_cb s e p).1 = (proc_delete s e p).1 ∧
      (proc_completion_cb s e p).2.1 = e := by
  rcases h : proc_delete s e p with ⟨s', e'⟩
  have he : e' = e := by rw [← proc_delete_snd s e p, h]
  subst he
  simp [proc_completion_cb, h]

theorem proc_state_change_failed_proj (s : Server) (e : Nat) (p : Proc) :
    (proc_state_change_failed s e p).1 = (proc_delete s e p).1 ∧
      (proc_state_change_failed s e p).2.1 = e := by
  rcases h : proc_delete s e p with ⟨s', e'⟩
  have he : e' = e := by rw [← proc_delete_snd s e p, h]
  subst he
  simp [proc_state_change_failed, h]

theorem removalFlags_cons (o : Oracles) (s : Server) (e pid : Nat)
    (ev : LifeEvent) (evs : List LifeEvent) :
    removalFlags o s e pid (ev :: evs) =
      (if hasPid s.subprocesses pid ∧
          ¬hasPid ((handle_event o s e pid ev).1).subprocesses pid
        then 1 else 0)
        :: removalFlags o (handle_event o s e pid ev).1
            (handle_event o s e pid ev).2.1 pid evs := by
  rcases h : handle_event o s e pid ev with ⟨s', e', effs⟩
  simp [removalFlags, h]

/-- Delivering state-change(Running) or (Exited) updates the record in
place and emits a response: no Registry removal, errno untouched. -/
theorem handle_event_keep (o : Oracles) (s : Server) (e pid : Nat)
    (p : Proc) (st : ProcState)
    (hst : st = ProcState.running ∨ st = ProcState.exited)
    (hf : findByPid s.subprocesses pid = some p) :
    (handle_event o s e pid (.stateChange st)).1 =
        { s with subprocesses := setProc s.subprocesses { p with state := st } } ∧
      (handle_event o s e pid (.stateChange st)).2.1 = e := by
  rcases hst with h | h <;> subst h <;>
    simp [handle_event, hf, proc_state_change_cb]

/-- Delivering state-change(Failed) responds with the failure errno and
deletes the record eagerly. -/
theorem handle_event_failed (o : Oracles) (s : Server) (e pid : Nat)
    (p : Proc) (hf : findByPid s.subprocesses pid = some p) :
    ((handle_event o s e pid (.stateChange .failed)).1).subprocesses =
        removeByPid (setProc s.subprocesses { p with state := ProcState.failed })
          pid ∧
      (handle_event o s e pid (.stateChange .failed)).2.1 = e := by
  have hq : ({ p with state := ProcState.failed } : Proc).pid = pid := by
    have h := findByPid_pid hf
    exact h
  have h₁ := proc_state_change_failed_proj
    { s with subprocesses :=
        setProc s.subprocesses { p with state := ProcState.failed } } e
    { p with state := ProcState.failed }
  have h₂ := proc_delete_fst_subs
    { s with subprocesses :=
        setProc s.subprocesses { p with state := ProcState.failed } } e
    { p with state := ProcState.failed }
  simp only [handle_event, hf, proc_state_change_cb]
  refine ⟨?_, h₁.2⟩
  rw [h₁.1, h₂, hq]

/-- Delivering the completion event deletes the record. -/
theorem handle_event_completion (o : Oracles) (s : Server) (e pid : Nat)
    (p : Proc) (hf : findByPid s.subprocesses pid = some p) :
    ((handle_event o s e pid .completion).1).subprocesses =
        removeByPid s.subprocesses pid ∧
      (handle_event o s e pid .completion).2.1 = e := by
  have hq : p.pid = pid := findByPid_pid hf
  have h₁ := proc_completion_cb_proj s e p
  have h₂ := proc_delete_fst_subs s e p
  simp only [handle_event, hf]
  refine ⟨?_, h₁.2⟩
  rw [h₁.1, h₂, hq]

theorem hasPid_eq_false_of_countPid_zero {l : List Proc} {pid : Nat}
    (h : countPid l pid = 0) : hasPid l pid = false := by
  cases hb : hasPid l pid
  · rfl
  · exact absurd (hasPid_iff_countPid.mp hb) (by omega)

/-- Evaluation of the removal flags over the normal-exit trace. -/
theorem removalFlags_exit_trace (o : Oracles) (s : Server) (e pid : Nat)
    (p : Proc) (hf : findByPid s.subprocesses pid = some p)
    (hc : countPid s.subprocesses pid = 1) :
    removalFlags o s e pid
      [.stateChange .running, .stateChange .exited, .completion] = [0, 0, 1] := by
  have hpid : p.pid = pid := findByPid_pid hf
  have hhas : hasPid s.subprocesses pid = true :=
    hasPid_iff_countPid.mpr (by omega)
  have hp₁pid : ({ p with state := ProcState.running } : Proc).pid = pid := hpid
  obtain ⟨hs₁, he₁⟩ :=
    handle_event_keep o s e pid p ProcState.running (Or.inl rfl) hf
  have hhas₁ :
      hasPid (setProc s.subprocesses { p with state := ProcState.running }) pid
        = true := hasPid_setProc hp₁pid hhas
  have hc₁ :
      countPid (setProc s.subprocesses { p with state := ProcState.running }) pid
        = 1 := by rw [countPid_setProc hp₁pid]; exact hc
  have hf₁ :
      findByPid (setProc s.subprocesses { p with state := ProcState.running }) pid
        = some { p with state := ProcState.running } :=
    findByPid_setProc hp₁pid hhas
  rw [removalFlags_cons, hs₁, he₁]
  dsimp only
  have hp₂pid :
      ({ { p with state := ProcState.running } with
          state := ProcState.exited } : Proc).pid = pid := hpid
  obtain ⟨hs₂, he₂⟩ :=
    handle_event_keep o
      { s with subprocesses :=
          setProc s.subprocesses { p with state := ProcState.running } }
      e pid { p with state := ProcState.running } ProcState.exited
      (Or.inr rfl) hf₁
  have hhas₂ :
      hasPid
        (setProc (setProc s.subprocesses { p with state := ProcState.running })
          { { p with state := ProcState.running } with
              state := ProcState.exited }) pid = true :=
    hasPid_setProc hp₂pid hhas₁
  have hc₂ :
      countPid
        (setProc (setProc s.subprocesses { p with state := ProcState.running })
          { { p with state := ProcState.running } with
              state := ProcState.exited }) pid = 1 := by
    rw [countPid_setProc hp₂pid]; exact hc₁
  have hf₂ :
      findByPid
        (setProc (setProc s.subprocesses { p with state := ProcState.running })
          { { p with state := ProcState.running } with
              state := ProcState.exited }) pid
        = some { { p with state := ProcState.running } with
            state := ProcState.exited } :=
    findByPid_setProc hp₂pid hhas₁
  rw [removalFlags_cons, hs₂, he₂]
  dsimp only
  obtain ⟨hs₃, he₃⟩ :=
    handle_event_completion o
      { s with subprocesses :=
          (setProc (setProc s.subprocesses { p with state := ProcState.running })
            { { p with state := ProcState.running } with
                state := ProcState.exited }) }
      e pid
      { { p with state := ProcState.running } with state := ProcState.exited }
      hf₂
  have hhas₃ :
      hasPid ((handle_event o
        { s with subprocesses :=
            (setProc (setProc s.subprocesses { p with state := ProcState.running })
              { { p with state := ProcState.running } with
                  state := ProcState.exited }) }
        e pid .completion).1).subprocesses pid = false := by
    apply hasPid_eq_false_of_countPid_zero
    rw [hs₃]
    dsimp only
    rw [countPid_removeByPid hhas₂, hc₂]
  rw [removalFlags_cons]
  simp [removalFlags, hhas, hhas₁, hhas₂, hhas₃]

/-- Evaluation of the removal flags over the failure trace. -/
theorem removalFlags_fail_trace (o : Oracles) (s : Server) (e pid : Nat)
    (p : Proc) (hf : findByPid s.subprocesses pid = some p)
    (hc : countPid s.subprocesses pid = 1) :
    removalFlags o s e pid
      [.stateChange .running, .stateChange .failed] = [0, 1] := by
  have hpid : p.pid = pid := findByPid_pid hf
  have hhas : hasPid s.subprocesses pid = true :=
    hasPid_iff_countPid.mpr (by omega)
  have hp₁pid : ({ p with state := ProcState.running } : Proc).pid = pid := hpid
  obtain ⟨hs₁, he₁⟩ :=
    handle_event_keep o s e pid p ProcState.running (Or.inl rfl) hf
  have hhas₁ :
      hasPid (setProc s.subprocesses { p with state := ProcState.running }) pid
        = true := hasPid_setProc hp₁pid hhas
  have hc₁ :
      countPid (setProc s.subprocesses { p with state := ProcState.running }) pid
        = 1 := by rw [countPid_setProc hp₁pid]; exact hc
  have hf₁ :
      findByPid (setProc s.subprocesses { p with state := ProcState.running }) pid
        = some { p with state := ProcState.running } :=
    findByPid_setProc hp₁pid hhas
  rw [removalFlags_cons, hs₁, he₁]
  dsimp only
  have hp₂pid :
      ({ { p with state := ProcState.running } with
          state := ProcState.failed } : Proc).pid = pid := hpid
  obtain ⟨hs₂, he₂⟩ :=
    handle_event_failed o
      { s with subprocesses :=
          setProc s.subprocesses { p with state := ProcState.running } }
      e pid { p with state := ProcState.running } hf₁
  have hhas₂ :
      hasPid
        (setProc (setProc s.subprocesses { p with state := ProcState.running })
          { { p with state := ProcState.running } with
              state := ProcState.failed }) pid = true :=
    hasPid_setProc hp₂pid hhas₁
  have hc₂ :
      countPid
        (setProc (setProc s.subprocesses { p with state := ProcState.running })
          { { p with state := ProcState.running } with
              state := ProcState.failed }) pid = 1 := by
    rw [countPid_setProc hp₂pid]; exact hc₁
  have hhas₂' :
      hasPid ((handle_event o
        { s with subprocesses :=
            setProc s.subprocesses { p with state := ProcState.running } }
        e pid (.stateChange .failed)).1).subprocesses pid = false := by
    apply hasPid_eq_false_of_countPid_zero
    rw [hs₂]
    dsimp only
    rw [countPid_removeByPid hhas₂, hc₂]
  rw [removalFlags_cons]
  simp [removalFlags, hhas, hhas₁, hhas₂']

/-! ## Concrete instances for witness evaluation -/

/-- A concrete subprocess record. -/
def demoProc : Proc :=
  { pid := 7, state := ProcState.running, failed_errno := 0, status := 0,
    req := 100, sender := "clientA", argv := ["/bin/true"] }

/-- A second concrete subprocess record. -/
def demoProc2 : Proc :=
  { demoProc with pid := 8, req := 101, sender := "clientB" }

/-- A concrete oracle where every external operation succeeds and
writes report the full length. -/
def oracle0 : Oracles :=
  { killpgOk := fun _ _ => true
    killpgErrno := 0
    subKillOk := fun _ _ => true
    subKillErrno := 0
    wret := fun _ _ len => (len : Int)
    wretErrno := 0
    closeOk := fun _ _ => true
    closeErrno := 0 }

/-- A concrete server holding two subprocesses, no auth callback, no
shutdown outstanding. -/
def demoServer : Server :=
  { subprocesses := [demoProc, demoProc2], rank := 3,
    local_uri := "local:///tmp/f", auth_cb := none, handlers := true,
    shutdown := none }

/-! ## Claim theorems -/

/-- C1: for every process that reaches a terminal state, its Registry
record is removed exactly once — at the completion event on the
normal-exit path, or eagerly at the Failed transition (after which no
completion event is delivered for that record) — never on both paths. -/
theorem c1_registry_removed_exactly_once (o : Oracles) (s : Server)
    (e pid : Nat) (p : Proc)
    (hf : findByPid s.subprocesses pid = some p)
    (hc : countPid s.subprocesses pid = 1)
    (evs : List LifeEvent) (hv : validTerminalTrace evs) :
    removalCount o s e pid evs = 1 ∧
      ((evs = [.stateChange .running, .stateChange .exited, .completion] ∧
          removalFlags o s e pid evs = [0, 0, 1]) ∨
       (evs = [.stateChange .running, .stateChange .failed] ∧
          removalFlags o s e pid evs = [0, 1])) := by
  rcases hv with hv | hv <;> subst hv
  · have h := removalFlags_exit_trace o s e pid p hf hc
    exact ⟨by simp [removalCount, h], Or.inl ⟨rfl, h⟩⟩
  · have h := removalFlags_fail_trace o s e pid p hf hc
    exact ⟨by simp [removalCount, h], Or.inr ⟨rfl, h⟩⟩

/-- Witness for C1: a concrete registry and the normal-exit trace. -/
theorem c1_witness :
    removalCount oracle0 demoServer 0 7
      [.stateChange .running, .stateChange .exited, .completion] = 1 :=
  (c1_registry_removed_exactly_once oracle0 demoServer 0 7 demoProc
    rfl rfl _ (Or.inl rfl)).1

/-- C3: calling shutdown while a shutdown is already outstanding fails
with EINVAL, creates no new handle, changes nothing and signals no
process, for every signum. -/
theorem c3_second_shutdown_fails (o : Oracles) (s : Server) (e signum : Nat)
    (b : Bool) (h : s.shutdown = some b) :
    subprocess_server_shutdown o s e signum = (none, s, EINVAL, []) := by
  simp [subprocess_server_shutdown, h]

/-- Witness for C3 at a concrete server with a pending shutdown. -/
theorem c3_witness :
    subprocess_server_shutdown oracle0
        { demoServer with shutdown := some false } 0 15
      = (none, { demoServer with shutdown := some false }, EINVAL, []) :=
  c3_second_shutdown_fails oracle0 _ 0 15 false rfl

/-- Every Registry member is signalled by the killall loop: on oracle
success its kill appears in the effects, on oracle failure the logged
error does — independently of what happens for other members. -/
theorem killall_go_mem (o : Oracles) (signum : Nat) (p : Proc) :
    ∀ (l : List Proc) (e : Nat), p ∈ l →
      (o.subKillOk p.pid signum = true →
        Effect.subprocKill p.pid signum ∈ (killall_go o signum l e).2) ∧
      (o.subKillOk p.pid signum = false →
        Effect.logError "server_kill: flux_subprocess_kill"
          ∈ (killall_go o signum l e).2) := by
  intro l
  induction l with
  | nil => intro e h; simp at h
  | cons q qs ih =>
      intro e hmem
      rcases hk : server_kill o e q signum with ⟨e', effs⟩
      rcases hg : killall_go o signum qs e' with ⟨e'', rest⟩
      have hunf : killall_go o signum (q :: qs) e = (e'', effs ++ rest) := by
        simp [killall_go, hk, hg]
      rcases List.mem_cons.mp hmem with hq | hq
      · subst hq
        constructor
        · intro hok
          rw [server_kill, if_pos hok] at hk
          rw [hunf]
          simp only [Prod.mk.injEq] at hk
          simp [← hk.2]
        · intro hfail
          rw [server_kill] at hk
          rw [hfail] at hk
          simp only [Bool.false_eq_true, if_false, Prod.mk.injEq] at hk
          rw [hunf]
          simp [← hk.2]
      · have h := ih e' hq
        rw [hg] at h
        constructor
        · intro hok
          rw [hunf]
          exact List.mem_append_right _ (h.1 hok)
        · intro hfail
          rw [hunf]
          exact List.mem_append_right _ (h.2 hfail)

/-- C4: a first shutdown call creates the handle; with an empty
Registry it is fulfilled immediately and nothing is signalled;
otherwise every live process is signalled `signum` best-effort (one
failure does not stop the rest) and the handle stays pending. -/
theorem c4_first_shutdown (o : Oracles) (s : Server) (e signum : Nat)
    (h : s.shutdown = none) :
    (subprocess_server_shutdown o s e signum).1 = some () ∧
    ((subprocess_server_shutdown o s e signum).2.1).shutdown.isSome = true ∧
    (s.subprocesses = [] →
      ((subprocess_server_shutdown o s e signum).2.1).shutdown = some true ∧
        (subprocess_server_shutdown o s e signum).2.2.2 = []) ∧
    (s.subprocesses ≠ [] →
      ((subprocess_server_shutdown o s e signum).2.1).shutdown = some false ∧
        ∀ p ∈ s.subprocesses,
          (o.subKillOk p.pid signum = true →
            Effect.subprocKill p.pid signum
              ∈ (subprocess_server_shutdown o s e signum).2.2.2) ∧
          (o.subKillOk p.pid signum = false →
            Effect.logError "server_kill: flux_subprocess_kill"
              ∈ (subprocess_server_shutdown o s e signum).2.2.2)) := by
  by_cases hl : s.subprocesses = []
  · simp [subprocess_server_shutdown, h, hl]
  · rcases hg : killall_go o signum s.subprocesses e with ⟨e', effs⟩
    have hres : subprocess_server_shutdown o s e signum
        = (some (), { s with shutdown := some false }, e', effs) := by
      simp [subprocess_server_shutdown, h, hl, server_killall, hg]
    rw [hres]
    refine ⟨rfl, rfl, fun hc => absurd hc hl, fun _ => ⟨rfl, fun p hp => ?_⟩⟩
    have hm := killall_go_mem o signum p s.subprocesses e hp
    rw [hg] at hm
    exact hm

/-- Witness for C4: a concrete first shutdown over two live processes
leaves the handle pending and signals both. -/
theorem c4_witness :
    ((subprocess_server_shutdown oracle0 demoServer 0 15).2.1).shutdown
        = some false ∧
      Effect.subprocKill 7 15
        ∈ (subprocess_server_shutdown oracle0 demoServer 0 15).2.2.2 ∧
      Effect.subprocKill 8 15
        ∈ (subprocess_server_shutdown oracle0 demoServer 0 15).2.2.2 := by
  have h := (c4_first_shutdown oracle0 demoServer 0 15 rfl).2.2.2
    (by exact List.cons_ne_nil _ _)
  refine ⟨h.1, ?_, ?_⟩
  · exact (h.2 demoProc (List.mem_cons_self _ _)).1 rfl
  · exact (h.2 demoProc2 (by simp [demoServer])).1 rfl

/-- C9: `proc_delete` (including its shutdown-fulfillment check) and
`subprocess_server_destroy` both return with errno as it was on
entry. -/
theorem c9_errno_preserved (o : Oracles) (s : Server) (e : Nat) (p : Proc) :
    (proc_delete s e p).2 = e ∧
      (subprocess_server_destroy o s e).2.1 = e := by
  constructor
  · rfl
  · rcases hg : server_killall o { s with handlers := false } e SIGKILL
      with ⟨e₂, effs⟩
    simp [subprocess_server_destroy, hg]

/-- C10: creating the server with a null bus handle or null local URI
fails with EINVAL and registers no handlers; every successful creation
starts with an empty Registry and no shutdown outstanding. -/
theorem c10_create (h : Option Unit) (uri : Option String) (rank e : Nat) :
    ((h = none ∨ uri = none) →
      subprocess_server_create h uri rank e = (none, EINVAL, [])) ∧
    (∀ srv e' effs,
      subprocess_server_create h uri rank e = (some srv, e', effs) →
        srv.subprocesses = [] ∧ srv.shutdown = none ∧ srv.handlers = true ∧
          effs = [Effect.addHandlers]) := by
  constructor
  · rintro (h0 | h0)
    · subst h0; cases uri <;> rfl
    · subst h0; cases h <;> rfl
  · intro srv e' effs hmk
    cases h with
    | none => cases uri <;> simp [subprocess_server_create] at hmk
    | some u =>
        cases uri with
        | none => simp [subprocess_server_create] at hmk
        | some uriv =>
            simp only [subprocess_server_create, Prod.mk.injEq,
              Option.some.injEq] at hmk
            obtain ⟨hsrv, _, heffs⟩ := hmk
            subst hsrv
            exact ⟨rfl, rfl, rfl, heffs.symm⟩

/-- Witness for C10: a null bus handle fails; a concrete successful
creation starts empty with no shutdown outstanding. -/
theorem c10_witness :
    subprocess_server_create none (some "local:///tmp/f") 0 5
        = (none, EINVAL, []) ∧
      ∃ srv : Server,
        (subprocess_server_create (some ()) (some "local:///tmp/f") 3 5).1
            = some srv ∧
          srv.subprocesses = [] ∧ srv.shutdown = none := by
  refine ⟨(c10_create none (some "local:///tmp/f") 0 5).1 (Or.inl rfl), ?_⟩
  have h2 := (c10_create (some ()) (some "local:///tmp/f") 3 5).2
  refine ⟨{ subprocesses := [], rank := 3, local_uri := "local:///tmp/f",
            auth_cb := none, handlers := true, shutdown := none },
          rfl, ?_, ?_⟩
  · exact (h2 _ 5 [Effect.addHandlers] rfl).1
  · exact (h2 _ 5 [Effect.addHandlers] rfl).2.1

/-! ## Authorization-callback lemmas -/

/-- When an auth callback is set, running it yields its verdict and
records the invocation. -/
theorem runAuth_some {s : Server} {f : Nat → Bool} (m : Nat)
    (h : s.auth_cb = some f) :
    runAuth s m = (f m, [Effect.authCheck m]) := by
  simp [runAuth, h]

/-- The effects of running the auth callback never include effects of
other kinds. -/
theorem runAuth_snd_filter (s : Server) (m : Nat) (f : Effect → Bool)
    (hfa : f (Effect.authCheck m) = false) :
    ((runAuth s m).2).filter f = [] := by
  cases h : s.auth_cb <;> simp [runAuth, h, hfa]

/-- The disconnect kill loop never invokes the auth callback. -/
theorem disconnect_go_no_auth (o : Oracles) (snd : String) (m : Nat) :
    ∀ (l : List Proc) (e : Nat),
      Effect.authCheck m ∉ (disconnect_go o snd l e).2 := by
  intro l
  induction l with
  | nil => intro e; simp [disconnect_go]
  | cons q qs ih =>
      intro e
      rcases hk : (if q.sender = snd then server_kill o e q SIGKILL
          else (e, [])) with ⟨e', effs⟩
      rcases hg : disconnect_go o snd qs e' with ⟨e'', rest⟩
      have hunf : disconnect_go o snd (q :: qs) e = (e'', effs ++ rest) := by
        simp [disconnect_go, hk, hg]
      rw [hunf]
      have heffs : Effect.authCheck m ∉ effs := by
        by_cases hs : q.sender = snd
        · rw [if_pos hs, server_kill] at hk
          by_cases hob : o.subKillOk q.pid SIGKILL
          · rw [if_pos hob] at hk; cases hk; simp
          · simp only [hob, Bool.false_eq_true, if_false] at hk
            cases hk; simp
        · rw [if_neg hs] at hk; cases hk; simp
      have hrest : Effect.authCheck m ∉ rest := by
        have h := ih e'
        rw [hg] at h
        exact h
      simp only [List.mem_append]
      rintro (h | h)
      · exact heffs h
      · exact hrest h

/-! ## Claim C2 -/

/-- A concrete permissive auth callback. -/
def authAllow : Nat → Bool := fun _ => true

/-- `demoServer` with the auth callback installed. -/
def demoServerAuth : Server := { demoServer with auth_cb := some authAllow }

/-- A concrete well-formed write request targeting `demoProc`. -/
def demoWriteReq : WriteReq :=
  { parses := true, pid := 7,
    io := some { stream := "stdin", data := some [104, 105], eof := false },
    msgId := 200 }

/-- Counterexample to C2 as stated: handling a write request does
invoke the authorization callback (server_write_cb lines 391–395). -/
theorem c2_counterexample :
    Effect.authCheck 200
      ∈ (server_write_cb oracle0 demoServerAuth 0 demoWriteReq).2.2 := by
  decide

/-- C2 (amended): the authorization callback, when set, is invoked on
every list request, every parsed kill and write request, and every
parsed exec request received while no shutdown is outstanding — and
never when handling a disconnect notification. -/
theorem c2_auth_checked (o : Oracles) (spawn : Option Nat) (s : Server)
    (f : Nat → Bool) (e : Nat) (hauth : s.auth_cb = some f) :
    (∀ req : ExecReq, req.parses = true → s.shutdown = none →
      Effect.authCheck req.msgId ∈ (server_exec_cb spawn s e req).2.2) ∧
    (∀ req : KillReq, req.parses = true →
      Effect.authCheck req.msgId ∈ (server_kill_cb o s e req).2.2) ∧
    (∀ req : WriteReq, req.parses = true →
      Effect.authCheck req.msgId ∈ (server_write_cb o s e req).2.2) ∧
    (∀ msgId : Nat, Effect.authCheck msgId ∈ (server_list_cb s e msgId).2.2) ∧
    (∀ snd : Option String, ∀ m : Nat,
      Effect.authCheck m ∉ (server_disconnect_cb o s e snd).2.2) := by
  refine ⟨?_, ?_, ?_, ?_, ?_⟩
  · intro req hp hsd
    simp only [server_exec_cb, hp, hsd, runAuth_some req.msgId hauth]
    repeat' split
    all_goals simp_all
  · intro req hp
    simp only [server_kill_cb, hp, runAuth_some req.msgId hauth]
    repeat' split
    all_goals simp_all
  · intro req hp
    simp only [server_write_cb, hp, runAuth_some req.msgId hauth]
    repeat' split
    all_goals simp_all
  · intro msgId
    simp only [server_list_cb, runAuth_some msgId hauth]
    repeat' split
    all_goals simp_all
  · intro snd m
    cases snd with
    | none => simp [server_disconnect_cb]
    | some snd =>
        rcases hg : disconnect_go o snd s.subprocesses e with ⟨e', effs⟩
        have h := disconnect_go_no_auth o snd m s.subprocesses e
        rw [hg] at h
        simp [server_disconnect_cb, hg]
        exact h

/-- Witness for the amended C2: a concrete kill request invokes the
auth callback. -/
theorem c2_witness :
    Effect.authCheck 300
      ∈ (server_kill_cb oracle0 demoServerAuth 0
          { parses := true, pid := 9, signum := 2, msgId := 300 }).2.2 :=
  (c2_auth_checked oracle0 none demoServerAuth authAllow 0 rfl).2.1
    { parses := true, pid := 9, signum := 2, msgId := 300 } rfl

/-! ## Internal-fatal path lemmas -/

theorem proc_state_change_failed_effs (s : Server) (e : Nat) (p : Proc) :
    (proc_state_change_failed s e p).2.2
      = [Effect.respondError p.req p.failed_errno] := by
  rcases h : proc_delete s e p with ⟨s', e'⟩
  simp [proc_state_change_failed, h]

/-- `proc_internal_fatal` on a not-yet-failed process: exactly one
response — the failure report to the exec requester carrying the
entry errno — plus a SIGKILL of the process group, and the record's
eager removal from the Registry. -/
theorem internal_fatal_effects (o : Oracles) (s : Server) (e : Nat) (p : Proc)
    (hnf : p.state ≠ ProcState.failed) :
    ((proc_internal_fatal o s e p).2.2).filter Effect.isResponse
        = [Effect.respondError p.req e] ∧
      Effect.killpgAttempt p.pid SIGKILL ∈ (proc_internal_fatal o s e p).2.2 ∧
      ((proc_internal_fatal o s e p).1).subprocesses
        = removeByPid
            (setProc s.subprocesses
              { p with state := ProcState.failed, failed_errno := e }) p.pid := by
  rcases hcf : proc_state_change_failed
      { s with subprocesses := (setProc s.subprocesses
          { p with state := ProcState.failed, failed_errno := e }) } e
      { p with state := ProcState.failed, failed_errno := e }
    with ⟨s₂, e₂, effs₂⟩
  have heffs : effs₂ = [Effect.respondError p.req e] := by
    have h := proc_state_change_failed_effs
      { s with subprocesses := (setProc s.subprocesses
          { p with state := ProcState.failed, failed_errno := e }) } e
      { p with state := ProcState.failed, failed_errno := e }
    rw [hcf] at h
    exact h
  have hsub : s₂.subprocesses
      = removeByPid (setProc s.subprocesses
          { p with state := ProcState.failed, failed_errno := e }) p.pid := by
    have h := (proc_state_change_failed_proj
      { s with subprocesses := (setProc s.subprocesses
          { p with state := ProcState.failed, failed_errno := e }) } e
      { p with state := ProcState.failed, failed_errno := e }).1
    rw [hcf] at h
    dsimp only at h
    rw [h, proc_delete_fst_subs]
  subst heffs
  simp only [proc_internal_fatal]
  rw [if_neg hnf]
  simp only [hcf]
  repeat' split
  all_goals exact ⟨by simp [Effect.isResponse], by simp, hsub⟩

/-! ## Claim C5 -/

/-- C5: a write to a Running process whose stream write reports a
written length different from the payload length forces the process to
Failed — SIGKILL to its process group, exactly one failure response
(EOVERFLOW) to the exec requester, no response to the write request —
and removes its record from the Registry. -/
theorem c5_short_write_fatal (o : Oracles) (s : Server) (e : Nat)
    (req : WriteReq) (p : Proc) (chunk : IoChunk) (d : List Nat)
    (hp : req.parses = true)
    (hga : (runAuth s req.msgId).1 = true)
    (hio : req.io = some chunk)
    (hd : chunk.data = some d)
    (hlen : d.length ≠ 0)
    (hf : findByPid s.subprocesses req.pid = some p)
    (hc : countPid s.subprocesses req.pid = 1)
    (hrun : p.state = ProcState.running)
    (hw0 : 0 ≤ o.wret p.pid chunk.stream d.length)
    (hwne : o.wret p.pid chunk.stream d.length ≠ (d.length : Int)) :
    ((server_write_cb o s e req).2.2).filter Effect.isResponse
        = [Effect.respondError p.req EOVERFLOW] ∧
      Effect.killpgAttempt p.pid SIGKILL ∈ (server_write_cb o s e req).2.2 ∧
      hasPid ((server_write_cb o s e req).1).subprocesses req.pid = false := by
  have hpid : p.pid = req.pid := findByPid_pid hf
  have hnf : p.state ≠ ProcState.failed := by rw [hrun]; intro h; cases h
  obtain ⟨hfil, hmem, hsub⟩ := internal_fatal_effects o s EOVERFLOW p hnf
  rcases hif : proc_internal_fatal o s EOVERFLOW p with ⟨si, ei, effsi⟩
  rw [hif] at hfil hmem hsub
  dsimp only at hfil hmem hsub
  rcases hra : runAuth s req.msgId with ⟨g, aEffs⟩
  have hg : g = true := by rw [hra] at hga; exact hga
  subst hg
  have hd' : d ≠ [] := by
    intro h0
    rw [h0] at hlen
    exact hlen rfl
  have hnlt : ¬(o.wret p.pid chunk.stream d.length < 0) := not_lt.mpr hw0
  have hws : write_subprocess o e p chunk.stream d.length
      = (-1, EOVERFLOW,
         [Effect.logError "write_subprocess: channel buffer error"]) := by
    simp [write_subprocess, hnlt, hwne]
  have haf : aEffs.filter Effect.isResponse = [] := by
    have h := runAuth_snd_filter s req.msgId Effect.isResponse rfl
    rw [hra] at h
    exact h
  have hmain : server_write_cb o s e req
      = (si, ei,
         aEffs ++
           (Effect.logError "write_subprocess: channel buffer error"
             :: effsi)) := by
    simp [server_write_cb, hp, hra, hio, proc_find_bypid, hf, hrun, hd, hd',
      hws, hif, (by decide : ((-1 : Int) < 0))]
  refine ⟨?_, ?_, ?_⟩
  · rw [hmain]
    dsimp only
    simp [List.filter_append, haf, Effect.isResponse, hfil]
  · rw [hmain]
    dsimp only
    simp [List.mem_append, hmem]
  · rw [hmain]
    dsimp only
    apply hasPid_eq_false_of_countPid_zero
    have hqpid : ({ p with state := ProcState.failed, failed_errno := EOVERFLOW } : Proc).pid = req.pid := hpid
    have hhas0 : hasPid s.subprocesses req.pid = true :=
      hasPid_iff_countPid.mpr (by omega)
    have hhas1 : hasPid (setProc s.subprocesses
        { p with state := ProcState.failed, failed_errno := EOVERFLOW })
          req.pid = true :=
      hasPid_setProc hqpid hhas0
    have hc1 : countPid (setProc s.subprocesses
        { p with state := ProcState.failed, failed_errno := EOVERFLOW })
          req.pid = 1 := by
      rw [countPid_setProc hqpid]; exact hc
    rw [← hpid] at hhas1 hc1
    rw [hsub, ← hpid, countPid_removeByPid hhas1, hc1]

/-- An oracle whose stream write always reports 1 byte written. -/
def oracleShort : Oracles := { oracle0 with wret := fun _ _ _ => 1 }

/-- Witness for C5: a concrete 2-byte write reported as 1 byte
written. -/
theorem c5_witness :
    ((server_write_cb oracleShort demoServer 0 demoWriteReq).2.2).filter
        Effect.isResponse = [Effect.respondError 100 EOVERFLOW] ∧
      Effect.killpgAttempt 7 SIGKILL
        ∈ (server_write_cb oracleShort demoServer 0 demoWriteReq).2.2 := by
  have h := c5_short_write_fatal oracleShort demoServer 0 demoWriteReq demoProc
    { stream := "stdin", data := some [104, 105], eof := false } [104, 105]
    rfl rfl rfl rfl (by decide) rfl rfl rfl (by decide) (by decide)
  exact ⟨h.1, h.2.1⟩

/-! ## Claim C6 -/

/-- C6: a write request whose pid is not in the Registry is dropped
with no response and no state change; it produces one error-log entry
when eof is not set and none when eof is set. -/
theorem c6_write_unknown_pid (o : Oracles) (s : Server) (e : Nat)
    (req : WriteReq) (chunk : IoChunk)
    (hp : req.parses = true)
    (hga : (runAuth s req.msgId).1 = true)
    (hio : req.io = some chunk)
    (hf : findByPid s.subprocesses req.pid = none) :
    (server_write_cb o s e req).1 = s ∧
      ((server_write_cb o s e req).2.2).filter Effect.isResponse = [] ∧
      (((server_write_cb o s e req).2.2).filter Effect.isLog).length
        = (if chunk.eof then 0 else 1) := by
  rcases hra : runAuth s req.msgId with ⟨g, aEffs⟩
  have hg : g = true := by rw [hra] at hga; exact hga
  subst hg
  have hafR : aEffs.filter Effect.isResponse = [] := by
    have h := runAuth_snd_filter s req.msgId Effect.isResponse rfl
    rw [hra] at h
    exact h
  have hafL : aEffs.filter Effect.isLog = [] := by
    have h := runAuth_snd_filter s req.msgId Effect.isLog rfl
    rw [hra] at h
    exact h
  cases hEof : chunk.eof with
  | true =>
      have hmain : server_write_cb o s e req = (s, ENOENT, aEffs) := by
        simp [server_write_cb, hp, hra, hio, proc_find_bypid, hf, hEof]
      rw [hmain]
      exact ⟨rfl, hafR, by simp [hafL, hEof]⟩
  | false =>
      have hmain : server_write_cb o s e req
          = (s, ENOENT,
             aEffs ++ [Effect.logError "server_write_cb: proc_find_bypid"]) := by
        simp [server_write_cb, hp, hra, hio, proc_find_bypid, hf, hEof]
      rw [hmain]
      refine ⟨rfl, ?_, ?_⟩
      · simp [List.filter_append, hafR, Effect.isResponse]
      · simp [List.filter_append, hafL, Effect.isLog, hEof]

/-- A write for an unknown pid with eof set. -/
def unknownEofReq : WriteReq :=
  { parses := true, pid := 99,
    io := some { stream := "stdin", data := none, eof := true },
    msgId := 201 }

/-- A write for an unknown pid without eof. -/
def unknownNoEofReq : WriteReq :=
  { parses := true, pid := 99,
    io := some { stream := "stdin", data := none, eof := false },
    msgId := 202 }

/-- Witness for C6 at concrete unknown-pid writes with and without
eof. -/
theorem c6_witness :
    (((server_write_cb oracle0 demoServer 0 unknownEofReq).2.2).filter
        Effect.isLog).length = 0 ∧
      (((server_write_cb oracle0 demoServer 0 unknownNoEofReq).2.2).filter
        Effect.isLog).length = 1 := by
  have h1 := c6_write_unknown_pid oracle0 demoServer 0 unknownEofReq
    { stream := "stdin", data := none, eof := true } rfl rfl rfl rfl
  have h2 := c6_write_unknown_pid oracle0 demoServer 0 unknownNoEofReq
    { stream := "stdin", data := none, eof := false } rfl rfl rfl rfl
  exact ⟨h1.2.2, h2.2.2⟩

/-! ## Claim C7 -/

/-- C7: a kill request for a pid not in the Registry gets exactly one
response — the ENOENT (unknown pid) error — no signal is sent, and the
server is unchanged. -/
theorem c7_kill_unknown_pid (o : Oracles) (s : Server) (e : Nat)
    (req : KillReq)
    (hp : req.parses = true)
    (hga : (runAuth s req.msgId).1 = true)
    (hf : findByPid s.subprocesses req.pid = none) :
    (server_kill_cb o s e req).1 = s ∧
      ((server_kill_cb o s e req).2.2).filter Effect.isResponse
        = [Effect.respondError req.msgId ENOENT] ∧
      ((server_kill_cb o s e req).2.2).filter Effect.isSignal = [] := by
  rcases hra : runAuth s req.msgId with ⟨g, aEffs⟩
  have hg : g = true := by rw [hra] at hga; exact hga
  subst hg
  have hafR : aEffs.filter Effect.isResponse = [] := by
    have h := runAuth_snd_filter s req.msgId Effect.isResponse rfl
    rw [hra] at h
    exact h
  have hafS : aEffs.filter Effect.isSignal = [] := by
    have h := runAuth_snd_filter s req.msgId Effect.isSignal rfl
    rw [hra] at h
    exact h
  have hmain : server_kill_cb o s e req
      = (s, ENOENT, aEffs ++ [Effect.respondError req.msgId ENOENT]) := by
    simp [server_kill_cb, hp, hra, proc_find_bypid, hf]
  rw [hmain]
  refine ⟨rfl, ?_, ?_⟩
  · simp [List.filter_append, hafR, Effect.isResponse]
  · simp [List.filter_append, hafS, Effect.isSignal]

/-- Witness for C7 at a concrete kill of an unknown pid. -/
theorem c7_witness :
    ((server_kill_cb oracle0 demoServer 0
        { parses := true, pid := 99, signum := 15, msgId := 203 }).2.2).filter
          Effect.isResponse = [Effect.respondError 203 ENOENT] ∧
      ((server_kill_cb oracle0 demoServer 0
        { parses := true, pid := 99, signum := 15, msgId := 203 }).2.2).filter
          Effect.isSignal = [] := by
  have h := c7_kill_unknown_pid oracle0 demoServer 0
    { parses := true, pid := 99, signum := 15, msgId := 203 } rfl rfl rfl
  exact ⟨h.2.1, h.2.2⟩

/-! ## Claim C8 -/

/-- C8: an authorized list request leaves the server unchanged and gets
exactly one response, carrying the rank and one pid/command entry per
live Registry record, in a single message. -/
theorem c8_list_response (s : Server) (e msgId : Nat)
    (hga : (runAuth s msgId).1 = true) :
    (server_list_cb s e msgId).1 = s ∧
      ((server_list_cb s e msgId).2.2).filter Effect.isResponse
        = [Effect.respondList msgId s.rank (s.subprocesses.map process_info)] := by
  rcases hra : runAuth s msgId with ⟨g, aEffs⟩
  have hg : g = true := by rw [hra] at hga; exact hga
  subst hg
  have hafR : aEffs.filter Effect.isResponse = [] := by
    have h := runAuth_snd_filter s msgId Effect.isResponse rfl
    rw [hra] at h
    exact h
  have hmain : server_list_cb s e msgId
      = (s, e, aEffs ++ [Effect.respondList msgId s.rank
          (s.subprocesses.map process_info)]) := by
    simp [server_list_cb, hra]
  rw [hmain]
  exact ⟨rfl, by simp [List.filter_append, hafR, Effect.isResponse]⟩

/-- Witness for C8 at the concrete two-process server. -/
theorem c8_witness :
    ((server_list_cb demoServer 0 204).2.2).filter Effect.isResponse
      = [Effect.respondList 204 3
          [{ pid := 7, cmd := "/bin/true" }, { pid := 8, cmd := "/bin/true" }]] := by
  have h := (c8_list_response demoServer 0 204 rfl).2
  rw [h]
  decide
